import Mathlib

/-!
Verification of the signature-verification and browser-signing subsystem of the
`ecp` repository against its natural-language specification.

The Python sources are shallowly embedded: bytes are `List Nat` (each element a
byte value `< 256`), text is `String` or byte lists, `datetime` instants are
`Int` (UTC timestamps; only their ordering is used by the code under study),
fallible Python code is `Except String`/`Option`, and external effects
(file reads, the asn1crypto parser, hash functions, `strftime` rendering) are
supplied as explicit inputs of the model.
-/

/-- Python's `needle in hay` substring test on `str`. -/
def pyInStr (needle hay : String) : Bool :=
  decide (needle.toList <:+: hay.toList)

/-- Python `str.lower()` (the algorithm identifiers it is applied to are
ASCII). -/
def pyLower (s : String) : String := String.mk (s.data.map Char.toLower)

/-- Python `str.startswith`: `startsWithC pre l` is `l.startswith(pre)`
on character lists. -/
def startsWithC : List Char → List Char → Bool
  | [], _ => true
  | _ :: _, [] => false
  | p :: ps, b :: bs => p == b && startsWithC ps bs

/-- Python `str.startswith` on strings. -/
def pyStartsWithStr (pre s : String) : Bool := startsWithC pre.data s.data

/-- Python truthiness of an `Optional[str]`: `None` and `""` are falsy. -/
def truthyStr (o : Option String) : Bool :=
  match o with
  | some s => s ≠ ""
  | none => false

/-- Python truthiness of an `Optional[bytes]`: `None` and `b""` are falsy. -/
def truthyBytes (o : Option (List Nat)) : Bool :=
  match o with
  | some b => b ≠ []
  | none => false

/-! ## Model of `base64.b64encode` / `base64.b64decode`

`signature_utils._load_cms` and `browser_signing` call CPython's `base64`
module.  The encoder below is standard base64 with `=` padding and no line
breaks, exactly what `b64encode` produces.  The decoder models
`b64decode(s, validate=False)`: characters outside the base64 alphabet and
`=` are discarded, then the remaining stream must consist of 4-character
quanta, with padding (`=`) only in a final quantum; a leftover partial
quantum is `binascii.Error` (modelled as `none`). -/

/-- Byte value of the base64 alphabet character with index `i` (`i < 64`). -/
def b64Idx (i : Nat) : Nat :=
  if i < 26 then 65 + i
  else if i < 52 then 97 + (i - 26)
  else if i < 62 then 48 + (i - 52)
  else if i = 62 then 43
  else 47

/-- Index of a byte in the base64 alphabet, `none` for non-alphabet bytes. -/
def b64Val (c : Nat) : Option Nat :=
  if 65 ≤ c ∧ c ≤ 90 then some (c - 65)
  else if 97 ≤ c ∧ c ≤ 122 then some (c - 97 + 26)
  else if 48 ≤ c ∧ c ≤ 57 then some (c - 48 + 52)
  else if c = 43 then some 62
  else if c = 47 then some 63
  else none

/-- `base64.b64encode` on a byte list (no newlines, `=`-padded). -/
def pyB64Encode : List Nat → List Nat
  | [] => []
  | [a] => [b64Idx (a / 4), b64Idx (a % 4 * 16), 61, 61]
  | [a, b] => [b64Idx (a / 4), b64Idx (a % 4 * 16 + b / 16), b64Idx (b % 16 * 4), 61]
  | a :: b :: c :: rest =>
      b64Idx (a / 4) :: b64Idx (a % 4 * 16 + b / 16) ::
      b64Idx (b % 16 * 4 + c / 64) :: b64Idx (c % 64) :: pyB64Encode rest

/-- Decode a stream of base64 quanta (already filtered to alphabet and `=`). -/
def decodeQuanta : List Nat → Option (List Nat)
  | [] => some []
  | c1 :: c2 :: c3 :: c4 :: rest =>
    match b64Val c1, b64Val c2 with
    | some v1, some v2 =>
      if c3 = 61 then
        if c4 = 61 ∧ rest = [] then some [v1 * 4 + v2 / 16] else none
      else
        match b64Val c3 with
        | some v3 =>
          if c4 = 61 then
            if rest = [] then some [v1 * 4 + v2 / 16, v2 % 16 * 16 + v3 / 4] else none
          else
            match b64Val c4 with
            | some v4 =>
              (decodeQuanta rest).map
                (fun tl => (v1 * 4 + v2 / 16) :: (v2 % 16 * 16 + v3 / 4) ::
                           (v3 % 4 * 64 + v4) :: tl)
            | none => none
        | none => none
    | _, _ => none
  | _ => none

/-- `base64.b64decode(_, validate=False)` on a byte list. -/
def pyB64Decode (s : List Nat) : Option (List Nat) :=
  decodeQuanta (s.filter (fun c => (b64Val c).isSome || c == 61))

/-- `base64.b64decode` applied to a `str` argument (ASCII-encoded first;
a non-ASCII argument raises, modelled as `none`). -/
def pyB64DecodeStr (s : String) : Option (List Nat) :=
  if s.toList.all (fun c => c.toNat < 128) then pyB64Decode (s.toList.map Char.toNat)
  else none

theorem b64Val_b64Idx : ∀ i, i < 64 → b64Val (b64Idx i) = some i := by decide

theorem b64Idx_isEnc : ∀ i, i < 64 → (b64Val (b64Idx i)).isSome = true := by
  intro i hi
  rw [b64Val_b64Idx i hi]
  rfl

theorem b64Idx_ne_61 : ∀ i, i < 64 → b64Idx i ≠ 61 := by decide

/-- Every byte that `pyB64Encode` emits is an alphabet byte or `=` (61). -/
theorem pyB64Encode_mem (l : List Nat) (hl : ∀ b ∈ l, b < 256) :
    ∀ x ∈ pyB64Encode l, (b64Val x).isSome = true ∨ x = 61 := by
  induction l using pyB64Encode.induct with
  | case1 => intro x hx; simp [pyB64Encode] at hx
  | case2 a =>
    intro x hx
    have ha : a < 256 := hl a (by simp)
    simp only [pyB64Encode, List.mem_cons, List.not_mem_nil, or_false] at hx
    rcases hx with h | h | h | h
    · exact Or.inl (h ▸ b64Idx_isEnc _ (by omega))
    · exact Or.inl (h ▸ b64Idx_isEnc _ (by omega))
    · exact Or.inr h
    · exact Or.inr h
  | case3 a b =>
    intro x hx
    have ha : a < 256 := hl a (by simp)
    have hb : b < 256 := hl b (by simp)
    simp only [pyB64Encode, List.mem_cons, List.not_mem_nil, or_false] at hx
    rcases hx with h | h | h | h
    · exact Or.inl (h ▸ b64Idx_isEnc _ (by omega))
    · exact Or.inl (h ▸ b64Idx_isEnc _ (by omega))
    · exact Or.inl (h ▸ b64Idx_isEnc _ (by omega))
    · exact Or.inr h
  | case4 a b c rest ih =>
    intro x hx
    have ha : a < 256 := hl a (by simp)
    have hb : b < 256 := hl b (by simp)
    have hc : c < 256 := hl c (by simp)
    simp only [pyB64Encode, List.mem_cons] at hx
    rcases hx with h | h | h | h | h
    · exact Or.inl (h ▸ b64Idx_isEnc _ (by omega))
    · exact Or.inl (h ▸ b64Idx_isEnc _ (by omega))
    · exact Or.inl (h ▸ b64Idx_isEnc _ (by omega))
    · exact Or.inl (h ▸ b64Idx_isEnc _ (by omega))
    · exact ih (fun y hy => hl y (by simp [hy])) x h

/-- Filtering the encoder's output to alphabet-or-`=` bytes is the identity. -/
theorem pyB64Encode_filter (l : List Nat) (hl : ∀ b ∈ l, b < 256) :
    (pyB64Encode l).filter (fun c => (b64Val c).isSome || c == 61) = pyB64Encode l := by
  apply List.filter_eq_self.mpr
  intro x hx
  rcases pyB64Encode_mem l hl x hx with h | h
  · simp [h]
  · simp [h]

/-- Round trip: decoding the quanta the encoder produced recovers the bytes. -/
theorem decodeQuanta_pyB64Encode (l : List Nat) (hl : ∀ b ∈ l, b < 256) :
    decodeQuanta (pyB64Encode l) = some l := by
  induction l using pyB64Encode.induct with
  | case1 => rfl
  | case2 a =>
    have ha : a < 256 := hl a (by simp)
    simp only [pyB64Encode, decodeQuanta,
      b64Val_b64Idx (a / 4) (by omega), b64Val_b64Idx (a % 4 * 16) (by omega)]
    have : a / 4 * 4 + a % 4 * 16 / 16 = a := by omega
    rw [this]
    simp
  | case3 a b =>
    have ha : a < 256 := hl a (by simp)
    have hb : b < 256 := hl b (by simp)
    simp only [pyB64Encode, decodeQuanta,
      b64Val_b64Idx (a / 4) (by omega),
      b64Val_b64Idx (a % 4 * 16 + b / 16) (by omega),
      b64Val_b64Idx (b % 16 * 4) (by omega)]
    rw [if_neg (b64Idx_ne_61 (b % 16 * 4) (by omega))]
    have h1 : a / 4 * 4 + (a % 4 * 16 + b / 16) / 16 = a := by omega
    have h2 : (a % 4 * 16 + b / 16) % 16 * 16 + b % 16 * 4 / 4 = b := by omega
    rw [h1, h2]
    simp
  | case4 a b c rest ih =>
    have ha : a < 256 := hl a (by simp)
    have hb : b < 256 := hl b (by simp)
    have hc : c < 256 := hl c (by simp)
    have hrest : ∀ y ∈ rest, y < 256 := fun y hy => hl y (by simp [hy])
    simp only [pyB64Encode, decodeQuanta,
      b64Val_b64Idx (a / 4) (by omega),
      b64Val_b64Idx (a % 4 * 16 + b / 16) (by omega),
      b64Val_b64Idx (b % 16 * 4 + c / 64) (by omega),
      b64Val_b64Idx (c % 64) (by omega)]
    rw [if_neg (b64Idx_ne_61 (b % 16 * 4 + c / 64) (by omega))]
    rw [if_neg (b64Idx_ne_61 (c % 64) (by omega))]
    rw [ih hrest]
    have h1 : a / 4 * 4 + (a % 4 * 16 + b / 16) / 16 = a := by omega
    have h2 : (a % 4 * 16 + b / 16) % 16 * 16 + (b % 16 * 4 + c / 64) / 4 = b := by omega
    have h3 : (b % 16 * 4 + c / 64) % 4 * 64 + c % 64 = c := by omega
    simp [h1, h2, h3]

/-- `b64decode(b64encode(x)) == x` for byte strings. -/
theorem pyB64Decode_pyB64Encode (l : List Nat) (hl : ∀ b ∈ l, b < 256) :
    pyB64Decode (pyB64Encode l) = some l := by
  unfold pyB64Decode
  rw [pyB64Encode_filter l hl, decodeQuanta_pyB64Encode l hl]

/-! ## Byte-string helpers used by `signature_utils._load_cms`

`bytes.splitlines`, `bytes.strip`, `bytes.startswith` and `b"".join` on byte
lists.  `splitlines` breaks on `\n` (10), `\r` (13) and `\r\n`; `strip`
removes ASCII whitespace from both ends. -/

/-- Python `bytes.startswith`: `startsWithB p l` is `l.startswith(p)`. -/
def startsWithB : List Nat → List Nat → Bool
  | [], _ => true
  | _ :: _, [] => false
  | p :: ps, b :: bs => p == b && startsWithB ps bs

/-- Normalize line terminators: `\r\n` and lone `\r` both become `\n`, so
that Python `bytes.splitlines` (which breaks on all three) is the
`\n`-splitter below composed with this pass. -/
def normNl : List Nat → List Nat
  | [] => []
  | [b] => if b = 13 then [10] else [b]
  | a :: b :: rest =>
    if a = 13 then
      if b = 10 then 10 :: normNl rest
      else 10 :: normNl (b :: rest)
    else a :: normNl (b :: rest)

/-- Split on `\n` with Python `splitlines` end behaviour (no empty final
line for a trailing terminator); `cur` is the line being accumulated. -/
def splitNl (cur : List Nat) : List Nat → List (List Nat)
  | [] => if cur.isEmpty then [] else [cur]
  | b :: rest =>
    if b = 10 then cur :: splitNl [] rest
    else splitNl (cur ++ [b]) rest

/-- Python `bytes.splitlines`. -/
def pySplitlines (l : List Nat) : List (List Nat) := splitNl [] (normNl l)

/-- ASCII whitespace for Python `bytes.strip`. -/
def pyIsSpace (b : Nat) : Bool :=
  b == 32 || b == 9 || b == 10 || b == 13 || b == 11 || b == 12

/-- Python `bytes.strip()` (no argument: strip ASCII whitespace both ends). -/
def pyStrip (l : List Nat) : List Nat :=
  ((l.dropWhile pyIsSpace).reverse.dropWhile pyIsSpace).reverse

/-- Python `b"".join`. -/
def joinB (ls : List (List Nat)) : List Nat := ls.foldr (fun a b => a ++ b) []

theorem startsWithB_append (p t : List Nat) : startsWithB p (p ++ t) = true := by
  induction p with
  | nil => rfl
  | cons x xs ih => simp [startsWithB, ih]

theorem startsWithB_head (p : Nat) (ps l : List Nat)
    (h : startsWithB (p :: ps) l = true) : l.head? = some p := by
  cases l with
  | nil => simp [startsWithB] at h
  | cons b bs =>
    simp only [startsWithB, Bool.and_eq_true, beq_iff_eq] at h
    simp [h.1]

theorem dropWhile_eq_self_of_no_space (l : List Nat)
    (h : ∀ b ∈ l, pyIsSpace b = false) : l.dropWhile pyIsSpace = l := by
  cases l with
  | nil => rfl
  | cons x xs => simp [List.dropWhile_cons, h x (by simp)]

theorem pyStrip_eq_self (l : List Nat) (h : ∀ b ∈ l, pyIsSpace b = false) :
    pyStrip l = l := by
  unfold pyStrip
  rw [dropWhile_eq_self_of_no_space l h,
      dropWhile_eq_self_of_no_space l.reverse (by intro b hb; exact h b (List.mem_reverse.mp hb)),
      List.reverse_reverse]

/-- A carriage-return-free byte string is unchanged by `normNl`. -/
theorem normNl_no13 (l : List Nat) (h : ∀ b ∈ l, b ≠ 13) : normNl l = l := by
  induction l using normNl.induct
  all_goals simp_all [normNl]

/-- A line without `\n` followed by `\n` splits off as one line. -/
theorem splitNl_append (a : List Nat) (ha : ∀ b ∈ a, b ≠ 10) :
    ∀ cur rest, splitNl cur (a ++ 10 :: rest) = (cur ++ a) :: splitNl [] rest := by
  induction a with
  | nil => intro cur rest; simp [splitNl]
  | cons x xs ih =>
    intro cur rest
    simp only [List.cons_append, splitNl, if_neg (ha x (by simp)), List.append_eq]
    rw [ih (fun b hb => ha b (by simp [hb])) (cur ++ [x]) rest]
    simp

/-- A final line without `\n` is emitted as-is. -/
theorem splitNl_last (a : List Nat) (ha : ∀ b ∈ a, b ≠ 10) :
    ∀ cur, cur ++ a ≠ [] → splitNl cur a = [cur ++ a] := by
  induction a with
  | nil =>
    intro cur hne
    simp only [List.append_nil] at hne ⊢
    simp [splitNl, List.isEmpty_iff, hne]
  | cons x xs ih =>
    intro cur _
    simp only [splitNl, if_neg (ha x (by simp)), List.append_eq]
    rw [ih (fun b hb => ha b (by simp [hb])) (cur ++ [x]) (by simp)]
    simp

/-! ## `signature_utils._load_cms`: encoding normalization

`_load_cms` reads the `.p7s` bytes and normalizes them to DER before handing
them to `asn1crypto.cms.ContentInfo.load`:
- if the buffer is nonempty and its first byte is `0x30`, the raw bytes are
  used as-is;
- else if the buffer starts with `b"-----BEGIN"`, the lines strictly between
  the first BEGIN line and the first END line are stripped, concatenated and
  base64-decoded; a decode failure propagates (the surrounding code has no
  fallback here);
- otherwise every line is stripped, blank lines and lines starting with `#`
  are discarded, the rest is concatenated and base64-decoded; on decode
  failure the original bytes are kept as a last resort.
`loadCmsDer` returns the DER bytes handed to the ASN.1 parser, or the
propagated decode error. -/

/-- `b"-----BEGIN"`. -/
def beginB : List Nat := [45, 45, 45, 45, 45, 66, 69, 71, 73, 78]

/-- `b"-----END"`. -/
def endB : List Nat := [45, 45, 45, 45, 45, 69, 78, 68]

/-- `b"-----BEGIN PKCS7-----"`. -/
def pemBeginLine : List Nat := beginB ++ [32, 80, 75, 67, 83, 55, 45, 45, 45, 45, 45]

/-- `b"-----END PKCS7-----"`. -/
def pemEndLine : List Nat := endB ++ [32, 80, 75, 67, 83, 55, 45, 45, 45, 45, 45]

/-- The PEM-branch loop of `_load_cms`: skip until a BEGIN line (setting
`in_block`), stop at an END line, collect stripped lines in between. -/
def pemCollect : Bool → List (List Nat) → List (List Nat)
  | _, [] => []
  | inBlock, line :: rest =>
    if startsWithB beginB line then pemCollect true rest
    else if startsWithB endB line then []
    else if inBlock then pyStrip line :: pemCollect inBlock rest
    else pemCollect inBlock rest

/-- The base64 body of the PEM branch: collected lines joined with `b""`. -/
def pemJoined (raw : List Nat) : List Nat :=
  joinB (pemCollect false (pySplitlines raw))

/-- The bare-base64 branch's cleaned text: lines stripped, blank and
`#`-comment lines dropped, joined with `b""`. -/
def bareCleaned (raw : List Nat) : List Nat :=
  joinB (((pySplitlines raw).map pyStrip).filter
    (fun s => !s.isEmpty && !startsWithB [35] s))

/-- The `binascii.Error` text raised by a failing `base64.b64decode`. -/
def binasciiErr : String := "binascii.Error: Invalid base64-encoded string"

/-- `_load_cms`'s normalization of the raw `.p7s` bytes to DER (the bytes
subsequently given to `cms.ContentInfo.load`), or the propagated base64
error of the PEM branch. -/
def loadCmsDer (raw : List Nat) : Except String (List Nat) :=
  if raw.head? = some 48 then .ok raw
  else if startsWithB beginB raw then
    match pyB64Decode (pemJoined raw) with
    | some d => .ok d
    | none => .error binasciiErr
  else
    match pyB64Decode (bareCleaned raw) with
    | some d => .ok d
    | none => .ok raw

/-- The full `_load_cms`, with `asn1crypto`'s `ContentInfo.load` plus the
signed-data checks abstracted as the parser argument `p`. -/
def loadCms {α : Type} (p : List Nat → Except String α) (raw : List Nat) :
    Except String α :=
  match loadCmsDer raw with
  | .ok d => p d
  | .error e => .error e

/-- Bytes the encoder emits are never newline, `#`, `-`, `0x30`, whitespace. -/
theorem encByte_facts (x : Nat) (h : (b64Val x).isSome = true ∨ x = 61) :
    x ≠ 10 ∧ x ≠ 13 ∧ x ≠ 45 ∧ x ≠ 35 ∧ pyIsSpace x = false := by
  rcases h with h | h
  · refine ⟨?_, ?_, ?_, ?_, ?_⟩ <;>
      [skip; skip; skip; skip; skip] <;>
      first
        | (intro hx; subst hx; simp [b64Val] at h)
        | (by_cases hx : x = 32
           · subst hx; simp [b64Val] at h
           · by_cases h9 : x = 9
             · subst h9; simp [b64Val] at h
             · by_cases h10 : x = 10
               · subst h10; simp [b64Val] at h
               · by_cases h13 : x = 13
                 · subst h13; simp [b64Val] at h
                 · by_cases h11 : x = 11
                   · subst h11; simp [b64Val] at h
                   · by_cases h12 : x = 12
                     · subst h12; simp [b64Val] at h
                     · simp [pyIsSpace, hx, h9, h10, h13, h11, h12])
  · subst h
    refine ⟨by omega, by omega, by omega, by omega, by decide⟩

/-- Byte facts for every byte of an encoder output. -/
theorem pyB64Encode_byte_facts (l : List Nat) (hl : ∀ b ∈ l, b < 256) :
    ∀ x ∈ pyB64Encode l, x ≠ 10 ∧ x ≠ 13 ∧ x ≠ 45 ∧ x ≠ 35 ∧ pyIsSpace x = false :=
  fun x hx => encByte_facts x (pyB64Encode_mem l hl x hx)

theorem pyB64Encode_ne_nil (l : List Nat) (h : l ≠ []) : pyB64Encode l ≠ [] := by
  cases l with
  | nil => exact absurd rfl h
  | cons a t =>
    cases t with
    | nil => simp [pyB64Encode]
    | cons b t2 =>
      cases t2 with
      | nil => simp [pyB64Encode]
      | cons c r => simp [pyB64Encode]

theorem pyB64Encode_head (a : Nat) (t : List Nat) :
    (pyB64Encode (a :: t)).head? = some (b64Idx (a / 4)) := by
  cases t with
  | nil => rfl
  | cons b t2 => cases t2 <;> rfl

theorem startsWithB_false_of_head (p : Nat) (ps l : List Nat)
    (h : l.head? ≠ some p) : startsWithB (p :: ps) l = false := by
  cases l with
  | nil => rfl
  | cons b bs =>
    have hb : (p == b) = false := by
      simp only [List.head?_cons, ne_eq, Option.some.injEq] at h
      simp only [beq_eq_false_iff_ne, ne_eq]
      exact fun e => h e.symm
    simp [startsWithB, hb]

/-- The PEM text form of a DER payload, as `_load_cms` accepts it. -/
def pemWrap (der : List Nat) : List Nat :=
  pemBeginLine ++ 10 :: (pyB64Encode der ++ 10 :: pemEndLine)

theorem pySplitlines_pemWrap (der : List Nat) (hb : ∀ b ∈ der, b < 256) :
    pySplitlines (pemWrap der) = [pemBeginLine, pyB64Encode der, pemEndLine] := by
  have hfacts := pyB64Encode_byte_facts der hb
  have hno13 : ∀ b ∈ pemWrap der, b ≠ 13 := by
    intro b hb'
    simp only [pemWrap, List.mem_append, List.mem_cons] at hb'
    rcases hb' with h | h | h | h | h
    · revert h; revert b; decide
    · omega
    · exact (hfacts b h).2.1
    · omega
    · revert h; revert b; decide
  unfold pySplitlines
  rw [normNl_no13 _ hno13]
  unfold pemWrap
  rw [splitNl_append pemBeginLine (by decide) [] _]
  rw [splitNl_append (pyB64Encode der) (fun b hb' => (hfacts b hb').1) [] _]
  rw [splitNl_last pemEndLine (by decide) [] (by decide)]
  simp

theorem pemJoined_pemWrap (der : List Nat) (hne : der ≠ [])
    (h0 : der.head? = some 48) (hb : ∀ b ∈ der, b < 256) :
    pemJoined (pemWrap der) = pyB64Encode der := by
  have hfacts := pyB64Encode_byte_facts der hb
  obtain ⟨d0, t, rfl⟩ : ∃ d0 t, der = d0 :: t := by
    cases der with
    | nil => exact absurd rfl hne
    | cons d0 t => exact ⟨d0, t, rfl⟩
  have hd0 : d0 = 48 := by simpa using h0
  subst hd0
  have hhead : (pyB64Encode (48 :: t)).head? = some 77 := by
    rw [pyB64Encode_head]; decide
  unfold pemJoined
  rw [pySplitlines_pemWrap _ hb]
  have hbegin : startsWithB beginB pemBeginLine = true := startsWithB_append beginB _
  have hnotb : startsWithB beginB (pyB64Encode (48 :: t)) = false := by
    have : beginB = 45 :: [45, 45, 45, 45, 66, 69, 71, 73, 78] := by decide
    rw [this]
    exact startsWithB_false_of_head _ _ _ (by rw [hhead]; decide)
  have hnote : startsWithB endB (pyB64Encode (48 :: t)) = false := by
    have : endB = 45 :: [45, 45, 45, 45, 69, 78, 68] := by decide
    rw [this]
    exact startsWithB_false_of_head _ _ _ (by rw [hhead]; decide)
  have hendnotb : startsWithB beginB pemEndLine = false := by decide
  have hende : startsWithB endB pemEndLine = true := startsWithB_append endB _
  simp only [pemCollect, hbegin, hnotb, hnote, hendnotb, hende, if_true, if_false,
    Bool.false_eq_true, if_pos]
  rw [pyStrip_eq_self _ (fun b hb' => (hfacts b hb').2.2.2.2)]
  simp [joinB]

theorem bareCleaned_enc (der : List Nat) (hne : der ≠ [])
    (h0 : der.head? = some 48) (hb : ∀ b ∈ der, b < 256) :
    bareCleaned (pyB64Encode der) = pyB64Encode der := by
  have hfacts := pyB64Encode_byte_facts der hb
  obtain ⟨d0, t, rfl⟩ : ∃ d0 t, der = d0 :: t := by
    cases der with
    | nil => exact absurd rfl hne
    | cons d0 t => exact ⟨d0, t, rfl⟩
  have hd0 : d0 = 48 := by simpa using h0
  subst hd0
  have hennil : pyB64Encode (48 :: t) ≠ [] := pyB64Encode_ne_nil _ (by simp)
  have hhead : (pyB64Encode (48 :: t)).head? = some 77 := by
    rw [pyB64Encode_head]; decide
  unfold bareCleaned
  have hlines : pySplitlines (pyB64Encode (48 :: t)) = [pyB64Encode (48 :: t)] := by
    unfold pySplitlines
    rw [normNl_no13 _ (fun b hb' => (hfacts b hb').2.1)]
    rw [splitNl_last _ (fun b hb' => (hfacts b hb').1) [] (by simpa using hennil)]
    simp
  rw [hlines]
  simp only [List.map_cons, List.map_nil]
  rw [pyStrip_eq_self _ (fun b hb' => (hfacts b hb').2.2.2.2)]
  have hhash : startsWithB [35] (pyB64Encode (48 :: t)) = false :=
    startsWithB_false_of_head _ _ _ (by rw [hhead]; decide)
  have hie : (pyB64Encode (48 :: t)).isEmpty = false := by
    simp [List.isEmpty_iff, hennil]
  simp [List.filter, hhash, hie, joinB]

theorem loadCmsDer_binary (raw : List Nat) (h : raw.head? = some 48) :
    loadCmsDer raw = .ok raw := by
  unfold loadCmsDer
  rw [if_pos h]

theorem loadCmsDer_pemWrap (der : List Nat) (hne : der ≠ [])
    (h0 : der.head? = some 48) (hb : ∀ b ∈ der, b < 256) :
    loadCmsDer (pemWrap der) = .ok der := by
  have h45 : (pemWrap der).head? = some 45 := by
    simp [pemWrap, pemBeginLine, beginB]
  have hsw : startsWithB beginB (pemWrap der) = true := by
    have he : pemWrap der =
        beginB ++ ([32, 80, 75, 67, 83, 55, 45, 45, 45, 45, 45] ++
          (10 :: (pyB64Encode der ++ 10 :: pemEndLine))) := by
      simp [pemWrap, pemBeginLine, List.append_assoc]
    rw [he]
    exact startsWithB_append beginB _
  unfold loadCmsDer
  rw [if_neg (by simp [h45]), if_pos hsw]
  rw [pemJoined_pemWrap der hne h0 hb, pyB64Decode_pyB64Encode der hb]

theorem loadCmsDer_bare (der : List Nat) (hne : der ≠ [])
    (h0 : der.head? = some 48) (hb : ∀ b ∈ der, b < 256) :
    loadCmsDer (pyB64Encode der) = .ok der := by
  obtain ⟨d0, t, rfl⟩ : ∃ d0 t, der = d0 :: t := by
    cases der with
    | nil => exact absurd rfl hne
    | cons d0 t => exact ⟨d0, t, rfl⟩
  have hd0 : d0 = 48 := by simpa using h0
  subst hd0
  have hhead : (pyB64Encode (48 :: t)).head? = some 77 := by
    rw [pyB64Encode_head]; decide
  have hsw : startsWithB beginB (pyB64Encode (48 :: t)) = false := by
    have hbg : beginB = 45 :: [45, 45, 45, 45, 66, 69, 71, 73, 78] := by decide
    rw [hbg]
    exact startsWithB_false_of_head _ _ _ (by rw [hhead]; decide)
  unfold loadCmsDer
  rw [if_neg (by simp [hhead]), if_neg (by simp [hsw])]
  rw [bareCleaned_enc _ (by simp) (by simp) hb, pyB64Decode_pyB64Encode _ hb]

/-- Claim C3 (confirmed): for the same signed-data payload `der` (any DER
value: nonempty, first byte `0x30`, bytes), `_load_cms` normalizes the raw
binary form, the PEM-wrapped text form and the bare base64 text form to the
same DER bytes, so with any fixed ASN.1 parser `p` all three produce the
identical parsed container. -/
theorem c3_parse_encoding_equivalence (der : List Nat) (hne : der ≠ [])
    (h0 : der.head? = some 48) (hb : ∀ b ∈ der, b < 256) :
    loadCmsDer der = .ok der ∧
    loadCmsDer (pemWrap der) = .ok der ∧
    loadCmsDer (pyB64Encode der) = .ok der ∧
    (∀ (α : Type) (p : List Nat → Except String α),
      loadCms p der = p der ∧ loadCms p (pemWrap der) = p der ∧
      loadCms p (pyB64Encode der) = p der) := by
  have h1 := loadCmsDer_binary der h0
  have h2 := loadCmsDer_pemWrap der hne h0 hb
  have h3 := loadCmsDer_bare der hne h0 hb
  refine ⟨h1, h2, h3, fun α p => ⟨?_, ?_, ?_⟩⟩ <;>
    simp only [loadCms, h1, h2, h3]

/-- Witness for C3 at the concrete DER payload `30 00` (empty SEQUENCE). -/
theorem c3_parse_encoding_equivalence_witness :
    loadCmsDer [48, 0] = .ok [48, 0] ∧
    loadCmsDer (pemWrap [48, 0]) = .ok [48, 0] ∧
    loadCmsDer (pyB64Encode [48, 0]) = .ok [48, 0] := by
  have h := c3_parse_encoding_equivalence [48, 0] (by decide) (by decide) (by decide)
  exact ⟨h.1, h.2.1, h.2.2.1⟩

/-- A PEM-marked signature file whose body `A` is not valid base64. -/
def pemBadRaw : List Nat := pemBeginLine ++ [10, 65, 10] ++ pemEndLine

/-- Claim C2, counterexample: the claim says that when all decode attempts
fail, the original bytes are parsed as binary as a last resort.  For a
PEM-marked buffer with an undecodable body, `_load_cms` instead propagates
the `binascii` error: there is no last-resort parse of the original bytes. -/
theorem c2_load_cms_counterexample :
    loadCmsDer pemBadRaw = .error binasciiErr ∧
    loadCmsDer pemBadRaw ≠ .ok pemBadRaw := by
  constructor
  · rfl
  · intro h
    rw [show loadCmsDer pemBadRaw = Except.error binasciiErr from rfl] at h
    exact Except.noConfusion h

/-- Claim C2 (amended): `_load_cms` classifies by the *first byte* (no
whitespace skipping): first byte `0x30` → the raw bytes are the DER; else a
buffer starting with `b"-----BEGIN"` has its delimited body base64-decoded,
a decode failure propagating as an error (no binary fallback); otherwise the
cleaned text is base64-decoded, falling back to the original bytes only in
this bare branch. -/
theorem c2_load_cms_classification (raw : List Nat) :
    (raw.head? = some 48 → loadCmsDer raw = .ok raw) ∧
    (raw.head? ≠ some 48 → startsWithB beginB raw = true →
      ((∃ d, pyB64Decode (pemJoined raw) = some d ∧ loadCmsDer raw = .ok d) ∨
       (pyB64Decode (pemJoined raw) = none ∧ loadCmsDer raw = .error binasciiErr))) ∧
    (raw.head? ≠ some 48 → startsWithB beginB raw = false →
      ((∃ d, pyB64Decode (bareCleaned raw) = some d ∧ loadCmsDer raw = .ok d) ∨
       (pyB64Decode (bareCleaned raw) = none ∧ loadCmsDer raw = .ok raw))) := by
  refine ⟨fun h => loadCmsDer_binary raw h, fun h hsw => ?_, fun h hsw => ?_⟩
  · unfold loadCmsDer
    rw [if_neg h, if_pos hsw]
    cases hd : pyB64Decode (pemJoined raw) with
    | some d => exact Or.inl ⟨d, rfl, rfl⟩
    | none => exact Or.inr ⟨rfl, rfl⟩
  · unfold loadCmsDer
    rw [if_neg h, if_neg (by simp [hsw])]
    cases hd : pyB64Decode (bareCleaned raw) with
    | some d => exact Or.inl ⟨d, rfl, rfl⟩
    | none => exact Or.inr ⟨rfl, rfl⟩

/-- Witness for the amended C2 at a concrete DER buffer. -/
theorem c2_load_cms_classification_witness :
    loadCmsDer [48, 2, 1, 0] = .ok [48, 2, 1, 0] :=
  (c2_load_cms_classification [48, 2, 1, 0]).1 rfl

/-! ## `signature_utils`: data model and `get_certificate_info`

The CMS structures produced by `asn1crypto` are embedded as plain data.
`datetime` values are `Int` UTC timestamps (`_normalize_to_utc` makes both
comparison operands UTC-aware, so only the order matters).  `strftime`
rendering of resolved dates is abstracted as the `fmtDt`/`fmtDate` inputs:
no claim inspects the rendered text of a *resolved* date, only the
"не удалось определить" sentinel of unresolved fields. -/

/-- Default text of every `CertificateInfo` field. -/
def sentinelStr : String := "не удалось определить"

def sNoDigest : String := "не удалось проверить подпись (нет атрибута messageDigest)"

def sGostUnsupported : String :=
  "не удалось проверить подпись (алгоритм ГОСТ не поддерживается — установите пакет \x27gostcrypto\x27)"

def sUnknownAlg : String := "не удалось проверить подпись (неизвестный алгоритм хеширования)"

def sMismatch : String := "не соответствует документу"

def sExpired : String := "срок сертификата истёк"

def sValid : String := "действительна"

def sBadFormat : String :=
  "ошибка проверки: неподдерживаемый формат файла подписи (ожидается CMS/PKCS#7, см. ep_viewer.log)"

/-- The `ValueError` text of `_get_signer_info` on zero signers. -/
def noSignerErr : String := "В подписи отсутствуют сведения о подписанте"

/-- `signature_utils.CertificateInfo` with its constructor defaults. -/
structure CertificateInfo where
  serial_number : String := sentinelStr
  subject : String := sentinelStr
  issuer : String := sentinelStr
  valid_from : String := sentinelStr
  valid_to : String := sentinelStr
  signing_time : String := sentinelStr
  status : String := sentinelStr
deriving Repr, DecidableEq

/-- The `.native` value of a signed attribute's first entry (an OCTET STRING
for `message_digest`, a UTC time for `signing_time`). -/
inductive AttrValM
  | octets (b : List Nat)
  | time (t : Int)
deriving Repr, DecidableEq

/-- One signed attribute: its type name and `values[0].native`. -/
structure SignedAttrM where
  typ : String
  value : AttrValM
deriving Repr, DecidableEq

/-- One `SignerInfo`: signed attributes and the digest algorithm name
(`str` of the `.native` identifier). -/
structure SignerInfoM where
  signedAttrs : List SignedAttrM
  digestAlgorithm : String
deriving Repr, DecidableEq

/-- A parsed X.509 certificate, restricted to the fields the code reads.
`validity = none` models a validity window whose extraction failed (the
inner `try` of `get_certificate_info`); otherwise it is the UTC
`(notBefore, notAfter)` pair. -/
structure CertM where
  serialNumber : Nat
  subjectRdns : List (List (String × String))
  subjectHumanFriendly : String
  issuerHumanFriendly : String
  validity : Option (Int × Int)
deriving Repr, DecidableEq

/-- `CertificateChoices`: either an `x509.Certificate` or another choice
(`_pick_cert_from_signed_data`'s `isinstance` test fails). -/
inductive CertChoiceM
  | cert (c : CertM)
  | otherChoice
deriving Repr, DecidableEq

/-- A parsed `SignedData`. -/
structure SignedDataM where
  certificates : List CertChoiceM
  signerInfos : List SignerInfoM
deriving Repr, DecidableEq

/-- `_get_signer_info`: first signer, `ValueError` when there is none. -/
def getSignerInfo (sd : SignedDataM) : Except String SignerInfoM :=
  match sd.signerInfos with
  | [] => .error noSignerErr
  | si :: _ => .ok si

/-- First signed attribute of the given type (the loops `break` at the
first hit). -/
def firstAttrVal (si : SignerInfoM) (t : String) : Option AttrValM :=
  (si.signedAttrs.find? (fun a => a.typ == t)).map (fun a => a.value)

/-- The `messageDigest` attribute bytes of `_get_message_digest_and_alg`. -/
def messageDigestOf (si : SignerInfoM) : Option (List Nat) :=
  match firstAttrVal si "message_digest" with
  | some (.octets b) => some b
  | _ => none

/-- The `signingTime` of `_get_signing_time`. -/
def signingTimeOf (si : SignerInfoM) : Option Int :=
  match firstAttrVal si "signing_time" with
  | some (.time t) => some t
  | _ => none

/-- The `hashlib` algorithm names of `_compute_digest`'s `alg_map`
(each key maps to itself). -/
def shaNames : List String := ["sha1", "sha224", "sha256", "sha384", "sha512", "md5"]

/-- `_compute_digest`'s `gost_map`. -/
def gostMap : List (String × String) :=
  [("1.2.643.7.1.1.2.2", "streebog256"), ("1.2.643.7.1.1.2.3", "streebog512"),
   ("id-tc26-gost3411-12-256", "streebog256"), ("id-tc26-gost3411-12-512", "streebog512"),
   ("gost3411-2012-256", "streebog256"), ("gost3411-2012-512", "streebog512"),
   ("gost3411_2012_256", "streebog256"), ("gost3411_2012_512", "streebog512")]

/-- `gost_map.get(alg_norm, "streebog256")`. -/
def gostResolve (an : String) : String :=
  ((gostMap.find? (fun p => p.1 == an)).map (fun p => p.2)).getD "streebog256"

/-- Inputs of `get_certificate_info` that the outside world determines. -/
structure VerifyEnv where
  /-- Outcome of `_load_cms(p7s_path)` (file read + ASN.1 parse +
  signed-data check); `.error` is the exception text. -/
  loadCms : Except String SignedDataM
  /-- Truthiness of the `cer_path` argument. -/
  cerTruthy : Bool
  /-- Outcome of `_load_certificate_from_cer` when it is called:
  `some`/`none` certificate, or the raised exception's text. -/
  cerLoad : Except String (Option CertM)
  /-- The document's true digest per algorithm name: what the streaming
  hash of `pdf_path` yields for `hashlib`/`gostcrypto` name `n`. -/
  docOracle : String → List Nat
  /-- Whether `import gostcrypto.gosthash` succeeds. -/
  gostAvail : Bool
  /-- `some e` when opening/reading `pdf_path` raises with text `e`. -/
  pdfReadErr : Option String
  /-- `datetime.datetime.now(datetime.timezone.utc)`. -/
  now : Int
  /-- `strftime` rendering of `_format_dt` on a resolved instant. -/
  fmtDt : Int → String
  /-- `strftime` rendering of `_format_date` on a resolved instant. -/
  fmtDate : Int → String

/-- `_compute_digest(pdf_path, alg_name)`: `.ok none` for an unsupported
algorithm (or missing gostcrypto), the digest for a supported one, and a
propagated exception when the file read raises. -/
def computeDigestE (env : VerifyEnv) (alg : String) : Except String (Option (List Nat)) :=
  let an := pyLower alg
  if shaNames.contains an then
    match env.pdfReadErr with
    | some e => .error e
    | none => .ok (some (env.docOracle an))
  else if (gostMap.map (fun p => p.1)).contains an || pyStartsWithStr "1.2.643.7.1.1.2." an then
    if env.gostAvail then
      match env.pdfReadErr with
      | some e => .error e
      | none => .ok (some (env.docOracle (gostResolve an)))
    else .ok none
  else .ok none

/-- The digest-computation step of `get_certificate_info`: only entered
when both `msg_digest_attr` and `digest_alg` are truthy. -/
def digestStep (env : VerifyEnv) (msgAttr : Option (List Nat)) (alg : String) :
    Except String (Option (List Nat)) :=
  if truthyBytes msgAttr && (alg != "") then computeDigestE env alg else .ok none

/-- `matches_document`. -/
def matchesOf (pdfDigest : Option (List Nat)) (msgAttr : Option (List Nat)) : Bool :=
  match pdfDigest, msgAttr with
  | some d, some b => d == b
  | _, _ => false

/-- `_pick_cert_from_signed_data`. -/
def pickCertFromSignedData (sd : SignedDataM) : Option CertM :=
  match sd.certificates with
  | [] => none
  | first :: _ =>
    match first with
    | .cert c => some c
    | .otherChoice => none

/-- Certificate selection: the CER file (when given) first, else the first
embedded certificate. -/
def certStep (env : VerifyEnv) (sd : SignedDataM) : Except String (Option CertM) :=
  match (if env.cerTruthy then env.cerLoad else .ok none) with
  | .error e => .error e
  | .ok c =>
    .ok (match c with
         | some c0 => some c0
         | none => pickCertFromSignedData sd)

/-- `f"{serial:X}"` (serial numbers are nonnegative here). -/
def natToHexUpper (n : Nat) : String :=
  String.mk ((Nat.toDigits 16 n).map Char.toUpper)

/-- Split into two-character groups. -/
def group2 : List Char → List String
  | [] => []
  | [a] => [String.mk [a]]
  | a :: b :: rest => String.mk [a, b] :: group2 rest

/-- `_format_serial`. -/
def formatSerial (serial : Nat) : String :=
  let hs := natToHexUpper serial
  let hs2 := if hs.length % 2 = 1 then "0" ++ hs else hs
  String.intercalate " " (group2 hs2.toList)

/-- The nested loops of `_extract_common_name`: `cn` is reassigned at the
first `common_name` entry of each RDN, and the outer loop breaks as soon as
`cn` is truthy. -/
def scanRdnsCN : Option String → List (List (String × String)) → Option String
  | cn, [] => cn
  | cn, rdn :: rest =>
    let cn2 := match rdn.find? (fun tv => tv.1 == "common_name") with
      | some tv => some tv.2
      | none => cn
    if truthyStr cn2 then cn2 else scanRdnsCN cn2 rest

/-- `_extract_common_name`: the scanned CN when truthy, else
`subject.human_friendly`. -/
def extractCommonName (c : CertM) : String :=
  match scanRdnsCN none c.subjectRdns with
  | some v => if v ≠ "" then v else c.subjectHumanFriendly
  | none => c.subjectHumanFriendly

/-- `_format_dt` / `_format_date` on an optional resolved instant. -/
def formatOptM (fmt : Int → String) (o : Option Int) : String :=
  match o with
  | none => sentinelStr
  | some t => fmt t

/-- The certificate-field block of `get_certificate_info` (serial, subject,
issuer, and — when the validity extraction succeeds — the window dates). -/
def fillCertFields (env : VerifyEnv) (info : CertificateInfo) (cert : Option CertM) :
    CertificateInfo :=
  match cert with
  | none => info
  | some c =>
    let info := { info with
      serial_number := formatSerial c.serialNumber,
      subject := extractCommonName c,
      issuer := c.issuerHumanFriendly }
    match c.validity with
    | some (vf, vt) =>
      { info with valid_from := env.fmtDate vf, valid_to := env.fmtDate vt }
    | none => info

/-- The resolved validity window used by the status decision. -/
def windowOf (cert : Option CertM) : Option Int × Option Int :=
  match cert with
  | some c =>
    match c.validity with
    | some (a, b) => (some a, some b)
    | none => (none, none)
  | none => (none, none)

/-- The status chain of `get_certificate_info` (its final `if`/`elif`). -/
def formStatus (msgAttr : Option (List Nat)) (alg : String)
    (pdfDigest : Option (List Nat)) (matchesDoc : Bool)
    (vf vt : Option Int) (now : Int) : String :=
  if msgAttr = none ∨ alg = "" then sNoDigest
  else if pdfDigest = none then
    if pyInStr "gost" (pyLower alg) || pyStartsWithStr "1.2.643.7.1.1.2." alg then
      sGostUnsupported
    else sUnknownAlg
  else if matchesDoc = false then sMismatch
  else
    match vf, vt with
    | some a, some b => if now < a ∨ now > b then sExpired else sValid
    | _, _ => sValid

/-- The `except` handler's status text. -/
def foldStatusText (e : String) : String :=
  if pyInStr "ContentInfo" e && pyInStr "universal" e && pyInStr "application was found" e
  then sBadFormat
  else "ошибка проверки: " ++ e

/-- The `try` body of `get_certificate_info`: threads the partially filled
`CertificateInfo` and stops at the first raised exception, returning the
info-so-far together with the exception text. -/
def verifyCore (env : VerifyEnv) : CertificateInfo × Option String :=
  let info : CertificateInfo := {}
  match env.loadCms with
  | .error e => (info, some e)
  | .ok sd =>
    match getSignerInfo sd with
    | .error e => (info, some e)
    | .ok si =>
      let msgAttr := messageDigestOf si
      let alg := si.digestAlgorithm
      match digestStep env msgAttr alg with
      | .error e => (info, some e)
      | .ok pdfDigest =>
        let matchesDoc := matchesOf pdfDigest msgAttr
        let info := { info with signing_time := formatOptM env.fmtDt (signingTimeOf si) }
        match certStep env sd with
        | .error e => (info, some e)
        | .ok cert =>
          let info := fillCertFields env info cert
          let (vf, vt) := windowOf cert
          ({ info with status := formStatus msgAttr alg pdfDigest matchesDoc vf vt env.now },
           none)

/-- `get_certificate_info`: the `try` body with every raised exception
folded into `status` by the `except` handler. -/
def getCertificateInfoM (env : VerifyEnv) : CertificateInfo :=
  match verifyCore env with
  | (info, none) => info
  | (info, some e) => { info with status := foldStatusText e }

/-- The spec's status enum. -/
inductive SpecStatus
  | valid
  | mismatch
  | expired
  | cannotVerifyNoDigest
  | cannotVerifyUnsupported
  | errorDetail
deriving Repr, DecidableEq

/-- Map the code's status strings onto the spec's enum. -/
def classifyStatus (s : String) : SpecStatus :=
  if s = sValid then .valid
  else if s = sMismatch then .mismatch
  else if s = sExpired then .expired
  else if s = sNoDigest then .cannotVerifyNoDigest
  else if s = sGostUnsupported ∨ s = sUnknownAlg then .cannotVerifyUnsupported
  else .errorDetail

/-- The amended claim's status decision, written from its wording: absent
attribute or absent algorithm → CannotVerify(noDigestAttribute); empty
attribute value or unsupported algorithm → CannotVerify(unsupported);
recomputed digest differs → Mismatch (even when simultaneously expired);
now outside a resolved window → Expired; otherwise Valid. -/
def specStatusAmended (msgAttr : Option (List Nat)) (algPresent algSupported : Bool)
    (docDigest : List Nat) (vf vt : Option Int) (now : Int) : SpecStatus :=
  if msgAttr = none ∨ algPresent = false then .cannotVerifyNoDigest
  else if msgAttr = some [] ∨ algSupported = false then .cannotVerifyUnsupported
  else if msgAttr ≠ some docDigest then .mismatch
  else
    match vf, vt with
    | some a, some b => if now < a ∨ now > b then .expired else .valid
    | _, _ => .valid

/-- Whether `_compute_digest` supports the algorithm in this environment. -/
def algSupportedM (env : VerifyEnv) (alg : String) : Bool :=
  let an := pyLower alg
  shaNames.contains an ||
    (((gostMap.map (fun p => p.1)).contains an || pyStartsWithStr "1.2.643.7.1.1.2." an) &&
      env.gostAvail)

/-- The digest-oracle key `_compute_digest` uses for a supported algorithm. -/
def normAlgName (alg : String) : String :=
  let an := pyLower alg
  if shaNames.contains an then an else gostResolve an

theorem computeDigestE_char (env : VerifyEnv) (alg : String)
    (hpdf : env.pdfReadErr = none) :
    computeDigestE env alg =
      .ok (if algSupportedM env alg then some (env.docOracle (normAlgName alg))
           else none) := by
  unfold computeDigestE algSupportedM normAlgName
  rw [hpdf]
  cases h1 : shaNames.contains (pyLower alg) <;>
    cases h2 : (gostMap.map (fun p => p.1)).contains (pyLower alg) <;>
      cases h3 : pyStartsWithStr "1.2.643.7.1.1.2." (pyLower alg) <;>
        cases h4 : env.gostAvail <;>
          (simp only [h1, h2, h3, h4]; simp)

theorem digestStep_char (env : VerifyEnv) (msgAttr : Option (List Nat)) (alg : String)
    (hpdf : env.pdfReadErr = none) :
    digestStep env msgAttr alg =
      .ok (if truthyBytes msgAttr && (alg != "")
           then (if algSupportedM env alg then some (env.docOracle (normAlgName alg))
                 else none)
           else none) := by
  unfold digestStep
  by_cases hg : (truthyBytes msgAttr && (alg != "")) = true
  · rw [if_pos hg, if_pos hg]
    exact computeDigestE_char env alg hpdf
  · rw [if_neg hg, if_neg hg]

/-- Full characterization of `get_certificate_info` on the non-raising
path: load succeeded, at least one signer, readable document, certificate
step resolved to `certSel`. -/
theorem getCertificateInfoM_eq (env : VerifyEnv) (sd : SignedDataM) (si : SignerInfoM)
    (rest : List SignerInfoM) (certSel : Option CertM)
    (hload : env.loadCms = .ok sd)
    (hsi : sd.signerInfos = si :: rest)
    (hpdf : env.pdfReadErr = none)
    (hcert : certStep env sd = .ok certSel) :
    getCertificateInfoM env =
      (let msgAttr := messageDigestOf si
       let alg := si.digestAlgorithm
       let pdfDigest := if truthyBytes msgAttr && (alg != "")
         then (if algSupportedM env alg then some (env.docOracle (normAlgName alg))
               else none)
         else none
       let info0 : CertificateInfo :=
         { signing_time := formatOptM env.fmtDt (signingTimeOf si) }
       let info1 := fillCertFields env info0 certSel
       { info1 with status := (formStatus msgAttr alg pdfDigest
           (matchesOf pdfDigest msgAttr)
           (windowOf certSel).1 (windowOf certSel).2 env.now) }) := by
  unfold getCertificateInfoM verifyCore getSignerInfo
  rw [hload]
  dsimp only
  rw [hsi]
  dsimp only
  rw [digestStep_char env _ _ hpdf]
  dsimp only
  rw [hcert]

theorem classify_sNoDigest : classifyStatus sNoDigest = .cannotVerifyNoDigest := by decide

theorem classify_sGost : classifyStatus sGostUnsupported = .cannotVerifyUnsupported := by decide

theorem classify_sUnknown : classifyStatus sUnknownAlg = .cannotVerifyUnsupported := by decide

theorem classify_sMismatch : classifyStatus sMismatch = .mismatch := by decide

theorem classify_sExpired : classifyStatus sExpired = .expired := by decide

theorem classify_sValid : classifyStatus sValid = .valid := by decide

/-- The status chain, classified, equals the amended spec decision. -/
theorem classify_formStatus (msgAttr : Option (List Nat)) (alg : String) (supp : Bool)
    (oracleDigest : List Nat) (vf vt : Option Int) (now : Int) :
    classifyStatus (formStatus msgAttr alg
      (if truthyBytes msgAttr && (alg != "")
       then (if supp then some oracleDigest else none) else none)
      (matchesOf
        (if truthyBytes msgAttr && (alg != "")
         then (if supp then some oracleDigest else none) else none) msgAttr)
      vf vt now) =
    specStatusAmended msgAttr (alg != "") supp oracleDigest vf vt now := by
  rcases msgAttr with _ | b
  · simp [truthyBytes, formStatus, specStatusAmended, classify_sNoDigest]
  · rcases b with _ | ⟨x, xs⟩
    · by_cases halg : alg = ""
      · simp [halg, truthyBytes, formStatus, specStatusAmended, classify_sNoDigest]
      · by_cases hg : (pyInStr "gost" (pyLower alg) || pyStartsWithStr "1.2.643.7.1.1.2." alg) = true
        · simp [halg, truthyBytes, formStatus, specStatusAmended, hg, classify_sGost]
        · simp [halg, truthyBytes, formStatus, specStatusAmended, hg, classify_sUnknown]
    · by_cases halg : alg = ""
      · simp [halg, truthyBytes, formStatus, specStatusAmended, classify_sNoDigest]
      · by_cases hsupp : supp = true
        · by_cases heq : oracleDigest = x :: xs
          · rcases vf with _ | a <;> rcases vt with _ | b2
            · simp [halg, hsupp, heq, truthyBytes, matchesOf, formStatus,
                specStatusAmended, classify_sValid]
            · simp [halg, hsupp, heq, truthyBytes, matchesOf, formStatus,
                specStatusAmended, classify_sValid]
            · simp [halg, hsupp, heq, truthyBytes, matchesOf, formStatus,
                specStatusAmended, classify_sValid]
            · by_cases hout : now < a ∨ now > b2
              · simp [halg, hsupp, heq, hout, truthyBytes, matchesOf, formStatus,
                  specStatusAmended, classify_sExpired]
              · simp [halg, hsupp, heq, hout, truthyBytes, matchesOf, formStatus,
                  specStatusAmended, classify_sValid]
          · simp [halg, hsupp, heq, truthyBytes, matchesOf, formStatus,
              specStatusAmended, classify_sMismatch, Ne.symm heq]
        · by_cases hg : (pyInStr "gost" (pyLower alg) || pyStartsWithStr "1.2.643.7.1.1.2." alg) = true
          · simp [halg, hsupp, hg, truthyBytes, matchesOf, formStatus,
              specStatusAmended, classify_sGost]
          · simp [halg, hsupp, hg, truthyBytes, matchesOf, formStatus,
              specStatusAmended, classify_sUnknown]

/-- Claim C1 (amended): on the non-raising path of `get_certificate_info`
(container loaded, a signer present, readable document, certificate step
resolved), the status — read through the spec's enum — follows the fixed
precedence chain: attribute or algorithm absent → CannotVerify(noDigest);
*empty* messageDigest value or unsupported algorithm → CannotVerify
(unsupportedAlgorithm); recomputed digest ≠ attribute → Mismatch (even when
the certificate is simultaneously expired); now outside a resolved validity
window → Expired; else Valid.  The status is thereby a function of exactly
(attribute, algorithm support, document digest, validity window, now). -/
theorem c1_status_precedence (env : VerifyEnv) (sd : SignedDataM) (si : SignerInfoM)
    (rest : List SignerInfoM) (certSel : Option CertM)
    (hload : env.loadCms = .ok sd)
    (hsi : sd.signerInfos = si :: rest)
    (hpdf : env.pdfReadErr = none)
    (hcert : certStep env sd = .ok certSel) :
    classifyStatus (getCertificateInfoM env).status =
      specStatusAmended (messageDigestOf si) (si.digestAlgorithm != "")
        (algSupportedM env si.digestAlgorithm)
        (env.docOracle (normAlgName si.digestAlgorithm))
        (windowOf certSel).1 (windowOf certSel).2 env.now := by
  rw [getCertificateInfoM_eq env sd si rest certSel hload hsi hpdf hcert]
  dsimp only
  exact classify_formStatus (messageDigestOf si) si.digestAlgorithm
    (algSupportedM env si.digestAlgorithm)
    (env.docOracle (normAlgName si.digestAlgorithm))
    (windowOf certSel).1 (windowOf certSel).2 env.now

/-- Signer whose messageDigest attribute is present but empty (`b""`). -/
def c1Si : SignerInfoM :=
  { signedAttrs := [{ typ := "message_digest", value := .octets [] }],
    digestAlgorithm := "sha256" }

def c1Sd : SignedDataM := { certificates := [], signerInfos := [c1Si] }

def c1Env : VerifyEnv :=
  { loadCms := .ok c1Sd, cerTruthy := false, cerLoad := .ok none,
    docOracle := fun _ => [1], gostAvail := false, pdfReadErr := none,
    now := 0, fmtDt := fun _ => "", fmtDate := fun _ => "" }

/-- Claim C1, counterexample: a container whose messageDigest attribute is
present but empty, with the supported algorithm sha256 and a document digest
that differs from the attribute.  The claim's precedence demands Mismatch;
the code skips digest computation (Python truthiness of `b""`) and reports
the unsupported-algorithm CannotVerify text instead. -/
theorem c1_status_precedence_counterexample :
    (getCertificateInfoM c1Env).status = sUnknownAlg ∧
    classifyStatus sUnknownAlg = SpecStatus.cannotVerifyUnsupported ∧
    SpecStatus.cannotVerifyUnsupported ≠ SpecStatus.mismatch := by
  refine ⟨?_, by decide, by decide⟩
  rfl

def c1wCert : CertM :=
  { serialNumber := 1, subjectRdns := [[("common_name", "Иванов")]],
    subjectHumanFriendly := "X", issuerHumanFriendly := "Y", validity := some (0, 100) }

def c1wSi : SignerInfoM :=
  { signedAttrs := [{ typ := "message_digest", value := .octets [7, 8] }],
    digestAlgorithm := "sha256" }

def c1wSd : SignedDataM := { certificates := [.cert c1wCert], signerInfos := [c1wSi] }

def c1wEnv : VerifyEnv :=
  { loadCms := .ok c1wSd, cerTruthy := false, cerLoad := .ok none,
    docOracle := fun _ => [7, 8], gostAvail := false, pdfReadErr := none,
    now := 50, fmtDt := fun _ => "t", fmtDate := fun _ => "d" }

/-- Witness for the amended C1 at a concrete matching container. -/
theorem c1_status_precedence_witness :
    classifyStatus (getCertificateInfoM c1wEnv).status =
      specStatusAmended (messageDigestOf c1wSi) (c1wSi.digestAlgorithm != "")
        (algSupportedM c1wEnv c1wSi.digestAlgorithm)
        (c1wEnv.docOracle (normAlgName c1wSi.digestAlgorithm))
        (windowOf (some c1wCert)).1 (windowOf (some c1wCert)).2 c1wEnv.now :=
  c1_status_precedence c1wEnv c1wSd c1wSi [] (some c1wCert) rfl rfl rfl rfl

/-- The six verdict texts the status chain can produce. -/
def isVerdict (s : String) : Prop :=
  s = sNoDigest ∨ s = sGostUnsupported ∨ s = sUnknownAlg ∨
  s = sMismatch ∨ s = sExpired ∨ s = sValid

theorem formStatus_isVerdict (msgAttr : Option (List Nat)) (alg : String)
    (pdfDigest : Option (List Nat)) (m : Bool) (vf vt : Option Int) (now : Int) :
    isVerdict (formStatus msgAttr alg pdfDigest m vf vt now) := by
  unfold formStatus
  by_cases h1 : msgAttr = none ∨ alg = ""
  · simp [h1, isVerdict]
  · by_cases h2 : pdfDigest = none
    · by_cases hg : (pyInStr "gost" (pyLower alg) || pyStartsWithStr "1.2.643.7.1.1.2." alg) = true
      · simp [h1, h2, hg, isVerdict]
      · simp [h1, h2, hg, isVerdict]
    · by_cases h3 : m = false
      · simp [h1, h2, h3, isVerdict]
      · rcases vf with _ | a <;> rcases vt with _ | b
        · simp [h1, h2, h3, isVerdict]
        · simp [h1, h2, h3, isVerdict]
        · simp [h1, h2, h3, isVerdict]
        · by_cases hw : now < a ∨ now > b
          · simp [h1, h2, h3, hw, isVerdict]
          · simp [h1, h2, h3, hw, isVerdict]

/-- Claim C9 (confirmed): for every input environment — any parse outcome
of the signature file, any certificate-file outcome, any document
readability, any algorithm — `get_certificate_info` returns a
`CertificateInfo` whose status is either one of the six verdict texts or
the `except`-handler's folded diagnostic; every raise point of the body is
captured, so a batch never aborts on one bad item. -/
theorem c9_errors_folded_into_status (env : VerifyEnv) :
    isVerdict (getCertificateInfoM env).status ∨
    ∃ e, (getCertificateInfoM env).status = foldStatusText e := by
  unfold getCertificateInfoM verifyCore getSignerInfo
  cases hl : env.loadCms with
  | error e => exact Or.inr ⟨e, rfl⟩
  | ok sd =>
    dsimp only
    cases hsig : sd.signerInfos with
    | nil => exact Or.inr ⟨noSignerErr, rfl⟩
    | cons si rest =>
      dsimp only
      cases hds : digestStep env (messageDigestOf si) si.digestAlgorithm with
      | error e => exact Or.inr ⟨e, rfl⟩
      | ok pdfD =>
        dsimp only
        cases hcs : certStep env sd with
        | error e => exact Or.inr ⟨e, rfl⟩
        | ok cert =>
          exact Or.inl (formStatus_isVerdict _ _ _ _ _ _ _)

/-- Certificate embedded in the container whose validity window cannot be
resolved. -/
def c10Cert : CertM :=
  { serialNumber := 1, subjectRdns := [], subjectHumanFriendly := "S",
    issuerHumanFriendly := "I", validity := none }

def c10Si : SignerInfoM :=
  { signedAttrs := [{ typ := "message_digest", value := .octets [7] }],
    digestAlgorithm := "sha256" }

def c10Sd : SignedDataM := { certificates := [.cert c10Cert], signerInfos := [c10Si] }

def c10Env : VerifyEnv :=
  { loadCms := .ok c10Sd, cerTruthy := false, cerLoad := .ok none,
    docOracle := fun _ => [7], gostAvail := false, pdfReadErr := none,
    now := 0, fmtDt := fun _ => "t", fmtDate := fun _ => "d" }

/-- Claim C10, counterexample: with a matching digest and an embedded
certificate whose validity window is unresolvable, the claim says *all*
certificate fields stay at the sentinel; the code resolves the serial
number ("01") — only the validity fields stay at the sentinel. -/
theorem c10_soft_fail_counterexample :
    (getCertificateInfoM c10Env).status = sValid ∧
    (getCertificateInfoM c10Env).serial_number = "01" ∧
    "01" ≠ sentinelStr := by
  refine ⟨rfl, rfl, by decide⟩

/-- Claim C10 (amended): when the digest attribute is present and nonempty,
the algorithm supported, the document readable and its digest equal to the
attribute, then — with no certificate selected — the status is Valid and
every certificate field stays at the "не удалось определить" sentinel; and
with a selected certificate whose validity window is unresolvable, the
status is likewise Valid and the two validity fields stay at the sentinel
(serial, subject and issuer are resolved).  A missing certificate or
missing window never yields Expired or CannotVerify. -/
theorem c10_soft_fail (env : VerifyEnv) (sd : SignedDataM) (si : SignerInfoM)
    (rest : List SignerInfoM) (certSel : Option CertM) (dg : List Nat)
    (hload : env.loadCms = .ok sd)
    (hsi : sd.signerInfos = si :: rest)
    (hpdf : env.pdfReadErr = none)
    (hcert : certStep env sd = .ok certSel)
    (hmsg : messageDigestOf si = some dg) (hne : dg ≠ [])
    (halg : si.digestAlgorithm ≠ "")
    (hsupp : algSupportedM env si.digestAlgorithm = true)
    (hdig : env.docOracle (normAlgName si.digestAlgorithm) = dg) :
    (certSel = none →
      (getCertificateInfoM env).status = sValid ∧
      (getCertificateInfoM env).serial_number = sentinelStr ∧
      (getCertificateInfoM env).subject = sentinelStr ∧
      (getCertificateInfoM env).issuer = sentinelStr ∧
      (getCertificateInfoM env).valid_from = sentinelStr ∧
      (getCertificateInfoM env).valid_to = sentinelStr) ∧
    (∀ c, certSel = some c → c.validity = none →
      (getCertificateInfoM env).status = sValid ∧
      (getCertificateInfoM env).valid_from = sentinelStr ∧
      (getCertificateInfoM env).valid_to = sentinelStr) := by
  rw [getCertificateInfoM_eq env sd si rest certSel hload hsi hpdf hcert]
  constructor
  · rintro rfl
    dsimp only
    simp [fillCertFields, windowOf, formStatus, hmsg, hne, halg, hsupp, hdig,
      truthyBytes, matchesOf]
  · rintro c rfl hval
    dsimp only
    simp [fillCertFields, windowOf, formStatus, hmsg, hne, halg, hsupp, hdig,
      truthyBytes, matchesOf, hval]

/-- Witness for the amended C10 at the concrete unresolved-window input. -/
theorem c10_soft_fail_witness :
    (getCertificateInfoM c10Env).status = sValid ∧
    (getCertificateInfoM c10Env).valid_from = sentinelStr ∧
    (getCertificateInfoM c10Env).valid_to = sentinelStr :=
  (c10_soft_fail c10Env c10Sd c10Si [] (some c10Cert) [7]
    rfl rfl rfl rfl rfl (by decide) (by decide) rfl rfl).2 c10Cert rfl rfl

/-! ## `browser_signing`: session log buffer, nonce gating, result slots

`BrowserSigningSession` state that the claims concern: the nonce, the
bounded log buffer, and the result/error slots with the completion event.
Handlers become pure functions from (session, request) to (session,
response); a response body is structured so that a rejection demonstrably
carries none of the protected payload. -/

/-- `BrowserSigningSession._append_log`: append, then keep the last 500. -/
def appendLog (entries : List String) (message : String) : List String :=
  let e := entries ++ [message]
  if e.length > 500 then e.drop (e.length - 500) else e

/-- `BrowserSigningSession.get_logs_since`: items after the cursor plus the
current highest id (`len(self._log_entries)`). -/
def getLogsSince (entries : List String) (lastId : Int) : Nat × List String :=
  let nextId := (max 0 lastId).toNat
  (entries.length, entries.drop nextId)

/-- A sequence of `_append_log` calls. -/
def appendAll (entries : List String) (ms : List String) : List String :=
  ms.foldl appendLog entries

/-- Session state reachable by the handlers. -/
structure SessionM where
  nonce : String
  logToPage : Bool
  pdfName : String
  pdfB64 : String
  pluginSources : List String
  entries : List String
  result : Option (List Nat)
  error : Option String
  eventSet : Bool
deriving Repr, DecidableEq

/-- Structured response bodies: a rejection is plain text, the gated
payloads appear only in the dedicated JSON constructors. -/
inductive RespBody
  | text (s : String)
  | configJson (nonce pdfName pdfB64 : String) (logEnabled : Bool)
      (initialLogs : List String) (lastLogId : Nat) (pluginSources : List String)
  | logsJson (last : Nat) (items : List String)
  | acceptedJson
deriving Repr, DecidableEq

structure Resp where
  status : Nat
  body : RespBody
deriving Repr, DecidableEq

/-- `_reject(HTTPStatus.FORBIDDEN, "Invalid nonce")`. -/
def rejectInvalidNonce : Resp := ⟨403, .text "Invalid nonce"⟩

/-- Python `int(s)` for the `after` query parameter (sign and digits; the
code falls back to 0 on `ValueError`). -/
def digitsToNat (ds : List Char) : Option Nat :=
  if ds = [] then none
  else ds.foldl (fun acc c =>
    match acc with
    | none => none
    | some n => if c.isDigit then some (n * 10 + (c.toNat - 48)) else none) (some 0)

def pyToInt (s : String) : Option Int :=
  match s.data with
  | [] => none
  | '-' :: ds => (digitsToNat ds).map (fun n => -(n : Int))
  | ds => (digitsToNat ds).map (fun n => (n : Int))

/-- `_BrowserSigningHandler._handle_logs` (404 `send_error` bodies carry no
session payload; they are modelled as plain text). -/
def handleLogs (s : SessionM) (nonceParam : Option String) (afterRaw : Option String) :
    Resp :=
  if nonceParam ≠ some s.nonce then rejectInvalidNonce
  else if s.logToPage = false then ⟨404, .text "Not Found"⟩
  else
    let after := (pyToInt (afterRaw.getD "0")).getD 0
    let r := getLogsSince s.entries after
    ⟨200, .logsJson r.1 r.2⟩

/-- `_BrowserSigningHandler._handle_config` (its `_validate_nonce` guard
inlined). -/
def handleConfig (s : SessionM) (nonceParam : Option String) : Resp :=
  if nonceParam ≠ some s.nonce then rejectInvalidNonce
  else
    let init := getLogsSince s.entries 0
    ⟨200, .configJson s.nonce s.pdfName s.pdfB64 s.logToPage init.2 init.1 s.pluginSources⟩

/-- The JSON body of a result POST (fields absent in the JSON are `none`). -/
structure PostPayload where
  nonce : Option String
  status : Option String
  error : Option String
  signature : Option String
deriving Repr, DecidableEq

/-- `BrowserSigningSession.set_error`. -/
def setError (s : SessionM) (m : String) : SessionM :=
  { s with error := some m, eventSet := true }

/-- `BrowserSigningSession.set_result`. -/
def setResult (s : SessionM) (sig : List Nat) : SessionM :=
  { s with result := some sig, eventSet := true }

def defaultBrowserErr : String := "Неизвестная ошибка браузерной подписи"

/-- The result-POST body as `json.loads` sees it: unparseable (`json.loads`
raises and the handler answers 400), valid JSON that is *not* an object
(`null`, an array, a string, a number — `json.loads` succeeds but the
subsequent `payload.get("nonce")` raises an uncaught `AttributeError`), or
a JSON object with its optional fields. -/
inductive PostBody
  | badJson
  | nonObject
  | obj (p : PostPayload)
deriving Repr, DecidableEq

/-- `_BrowserSigningHandler.do_POST` on `/result`.  The response is
`none` in the non-object case: the `AttributeError` from
`payload.get("nonce")` escapes `do_POST` (only `json.loads` is inside the
`try`), and `http.server` sends no response for it — in particular no
403 rejection. -/
def doPostResult (s : SessionM) (p : PostBody) : SessionM × Option Resp :=
  match p with
  | .badJson => (s, some ⟨400, .text "Invalid JSON"⟩)
  | .nonObject => (s, none)
  | .obj payload =>
    if payload.nonce ≠ some s.nonce then (s, some rejectInvalidNonce)
    else if payload.status ≠ some "ok" then
      let msg := match payload.error with
        | some e => if e ≠ "" then e else defaultBrowserErr
        | none => defaultBrowserErr
      (setError s msg, some ⟨200, .acceptedJson⟩)
    else
      match payload.signature with
      | none => (s, some ⟨400, .text "No signature"⟩)
      | some sig =>
        if sig = "" then (s, some ⟨400, .text "No signature"⟩)
        else
          match pyB64DecodeStr sig with
          | none => (s, some ⟨400, .text "Bad signature encoding"⟩)
          | some bytes => (setResult s bytes, some ⟨200, .acceptedJson⟩)

/-- The caller-visible outcome of `BrowserSigningSession.wait`. -/
inductive WaitOutcome
  | timedOut
  | failed (m : String)
  | internalEmpty
  | completed (sig : List Nat)
deriving Repr, DecidableEq

/-- `wait` after the timeout window: timed out if the event never fired,
else error first (`if self._error:` — truthiness), else empty-result
internal error, else the signature. -/
def waitOutcome (s : SessionM) : WaitOutcome :=
  if s.eventSet = false then .timedOut
  else if truthyStr s.error then .failed (s.error.getD "")
  else
    match s.result with
    | none => .internalEmpty
    | some r => .completed r

def c5Session : SessionM :=
  { nonce := "secret", logToPage := true, pdfName := "doc.pdf", pdfB64 := "AA==",
    pluginSources := [], entries := ["log1"], result := none, error := none,
    eventSet := false }

def c5BadPayload : PostPayload :=
  { nonce := some "wrong", status := some "ok", error := none, signature := some "AA==" }

/-- Claim C5, counterexample: a result POST whose body is valid JSON but
not an object (e.g. `null`) has a missing nonce, yet it is *not* rejected
with 403: `payload.get("nonce")` raises an uncaught `AttributeError` before
the nonce check and the handler sends no response at all. -/
theorem c5_nonce_gating_counterexample :
    doPostResult c5Session PostBody.nonObject = (c5Session, none) ∧
    (doPostResult c5Session PostBody.nonObject).2 ≠
      some ⟨403, RespBody.text "Invalid nonce"⟩ := by
  decide

/-- Claim C5 (amended): a missing or wrong nonce on the two gated GET
endpoints (config, log polling) is always rejected with 403 and the fixed
plain-text body "Invalid nonce" (no nonce, no document bytes, no log
entries), with the session unchanged; for the result POST the same
403-with-bare-text rejection holds whenever the body is a JSON *object*
with a missing or wrong nonce field, while an unparseable body gets a bare
400 and a valid-JSON non-object body crashes the handler before the nonce
check, producing no response at all (no protected payload either, but not
the claimed 403). -/
theorem c5_nonce_gating (s : SessionM) (nonceParam : Option String)
    (afterRaw : Option String) (payload : PostPayload)
    (hq : nonceParam ≠ some s.nonce) (hp : payload.nonce ≠ some s.nonce) :
    handleLogs s nonceParam afterRaw = ⟨403, .text "Invalid nonce"⟩ ∧
    handleConfig s nonceParam = ⟨403, .text "Invalid nonce"⟩ ∧
    doPostResult s (.obj payload) = (s, some ⟨403, .text "Invalid nonce"⟩) ∧
    doPostResult s .badJson = (s, some ⟨400, .text "Invalid JSON"⟩) ∧
    doPostResult s .nonObject = (s, none) := by
  unfold handleLogs handleConfig doPostResult rejectInvalidNonce
  refine ⟨?_, ?_, ?_, rfl, rfl⟩ <;> simp [hq, hp]

/-- Witness for the amended C5 at a concrete session and wrong-nonce
request. -/
theorem c5_nonce_gating_witness :
    handleLogs c5Session none (some "0") = ⟨403, .text "Invalid nonce"⟩ ∧
    handleConfig c5Session none = ⟨403, .text "Invalid nonce"⟩ ∧
    doPostResult c5Session (.obj c5BadPayload) =
      (c5Session, some ⟨403, .text "Invalid nonce"⟩) ∧
    doPostResult c5Session .badJson = (c5Session, some ⟨400, .text "Invalid JSON"⟩) ∧
    doPostResult c5Session .nonObject = (c5Session, none) :=
  c5_nonce_gating c5Session none (some "0") c5BadPayload (by decide) (by decide)

def c6S0 : SessionM :=
  { nonce := "n", logToPage := true, pdfName := "d.pdf", pdfB64 := "",
    pluginSources := [], entries := [], result := none, error := none,
    eventSet := false }

def c6OkPayload : PostPayload :=
  { nonce := some "n", status := some "ok", error := none, signature := some "AA==" }

def c6ErrPayload : PostPayload :=
  { nonce := some "n", status := some "error", error := some "boom", signature := none }

def c6S1 : SessionM := (doPostResult c6S0 (.obj c6OkPayload)).1

def c6S2 : SessionM := (doPostResult c6S1 (.obj c6ErrPayload)).1

/-- Claim C6, counterexample: after a successful result POST, a second POST
with the same valid nonce and an error status sets the *other* slot — both
result and error end up set — and flips the wait outcome from Completed to
Failed.  Nothing in the handler guards a finished session. -/
theorem c6_terminal_state_counterexample :
    c6S1.result = some [0] ∧ c6S1.error = none ∧
    waitOutcome c6S1 = .completed [0] ∧
    c6S2.result = some [0] ∧ c6S2.error = some "boom" ∧
    waitOutcome c6S2 = .failed "boom" := by
  decide

/-- Claim C6 (amended): one result POST on a fresh session (no slot set,
event clear) sets at most one of the result/error slots, and the completion
event fires exactly when a slot was set — for *every* body: unparseable
JSON, a valid-JSON non-object body (which crashes the handler without
mutating the session), or a JSON object.  The at-most-one and single-
terminal-state properties hold only per POST: a later POST with the still-
valid nonce can set the other slot (see the counterexample). -/
theorem c6_single_post_invariant (s : SessionM) (b : PostBody)
    (hres : s.result = none) (herr : s.error = none) (hev : s.eventSet = false) :
    ¬((doPostResult s b).1.result.isSome = true ∧
      (doPostResult s b).1.error.isSome = true) ∧
    ((doPostResult s b).1.eventSet =
      ((doPostResult s b).1.result.isSome ||
       (doPostResult s b).1.error.isSome)) := by
  cases b with
  | badJson => simp [doPostResult, hres, herr, hev]
  | nonObject => simp [doPostResult, hres, herr, hev]
  | obj p =>
    unfold doPostResult setError setResult
    by_cases h1 : p.nonce ≠ some s.nonce
    · simp [h1, hres, herr, hev]
    · by_cases h2 : p.status ≠ some "ok"
      · simp [h1, h2, hres, herr, hev]
      · cases h3 : p.signature with
        | none => simp [h1, h2, h3, hres, herr, hev]
        | some sig =>
          by_cases h4 : sig = ""
          · simp [h1, h2, h3, h4, hres, herr, hev]
          · cases h5 : pyB64DecodeStr sig with
            | none => simp [h1, h2, h3, h4, h5, hres, herr, hev]
            | some bytes => simp [h1, h2, h3, h4, h5, hres, herr, hev]

/-- Witness for the amended C6: the first POST of the counterexample run. -/
theorem c6_single_post_invariant_witness :
    ¬((doPostResult c6S0 (.obj c6OkPayload)).1.result.isSome = true ∧
      (doPostResult c6S0 (.obj c6OkPayload)).1.error.isSome = true) ∧
    ((doPostResult c6S0 (.obj c6OkPayload)).1.eventSet =
      ((doPostResult c6S0 (.obj c6OkPayload)).1.result.isSome ||
       (doPostResult c6S0 (.obj c6OkPayload)).1.error.isSome)) :=
  c6_single_post_invariant c6S0 (.obj c6OkPayload) rfl rfl rfl

set_option maxRecDepth 20000 in
/-- Claim C4, counterexample: with the buffer at capacity (500 entries) and
the client's cursor at the current last id 500, a poll returns no items;
after one more entry is appended (evicting the oldest), the next poll with
the same cursor *still* returns no items and the same last id 500 — the
entry written between the two polls is never visible, although it is in
the buffer.  The claimed guarantees fail once eviction has occurred. -/
theorem c4_log_cursor_counterexample :
    getLogsSince (List.replicate 500 "m") 500 = (500, []) ∧
    getLogsSince (appendLog (List.replicate 500 "m") "x") 500 = (500, []) ∧
    "x" ∈ appendLog (List.replicate 500 "m") "x" := by
  decide

/-- Claim C4 (amended): while the total number of appended entries stays
within the capacity 500 (no eviction), the log protocol behaves as claimed:
appends are plain appends, the last id is the buffer length (monotonically
increasing), polling at the current last id returns an empty item list (and
again on a repeat poll with no writes), entries written between two polls
are visible exactly once on the next poll with the correct new last id, and
after advancing the cursor they are never served again. -/
theorem c4_log_poll (l w : List String) (h : (l ++ w).length ≤ 500) :
    appendAll l w = l ++ w ∧
    getLogsSince l (l.length : Int) = (l.length, []) ∧
    getLogsSince (appendAll l w) (l.length : Int) = (l.length + w.length, w) ∧
    getLogsSince (appendAll l w) ((l.length : Int) + (w.length : Int)) =
      (l.length + w.length, []) := by
  have happ : appendAll l w = l ++ w := by
    induction w generalizing l with
    | nil => simp [appendAll]
    | cons m ws ih =>
      simp only [List.length_append, List.length_cons] at h
      have hstep : appendLog l m = l ++ [m] := by
        unfold appendLog
        rw [if_neg (by simp; omega)]
      have : appendAll l (m :: ws) = appendAll (l ++ [m]) ws := by
        unfold appendAll
        simp [List.foldl_cons, hstep]
      rw [this, ih (l ++ [m]) (by simp; omega)]
      simp
  have htn : ∀ n : Nat, (max 0 (n : Int)).toNat = n := by intro n; omega
  refine ⟨happ, ?_, ?_, ?_⟩
  · unfold getLogsSince
    rw [htn l.length]
    simp
  · unfold getLogsSince
    rw [htn l.length, happ]
    simp [List.drop_left]
  · unfold getLogsSince
    rw [happ]
    have hcast : ((l.length : Int) + (w.length : Int)) = (((l.length + w.length : Nat)) : Int) := by
      omega
    rw [hcast, htn (l.length + w.length)]
    dsimp only
    simp [List.drop_eq_nil_of_le, List.length_append]

/-- Witness for the amended C4 at a concrete small log. -/
theorem c4_log_poll_witness :
    appendAll ["a"] ["b"] = ["a"] ++ ["b"] ∧
    getLogsSince ["a"] 1 = (1, []) ∧
    getLogsSince (appendAll ["a"] ["b"]) 1 = (2, ["b"]) ∧
    getLogsSince (appendAll ["a"] ["b"]) 2 = (2, []) :=
  c4_log_poll ["a"] ["b"] (by decide)

/-! ## `cryptopro_cli._build_selector_args` -/

def msgChooseIncompat : String :=
  "Опция выбора сертификата (--choose) несовместима с явным указанием сертификата"

def msgNoSelector : String :=
  "Не указан сертификат. Передайте отпечаток сертификата через --thumbprint или используйте --choose для выбора установленного сертификата."

/-- Python truthiness projection: the contained string when truthy. -/
def optTruthyVal : Option String → Option String
  | some s => if s ≠ "" then some s else none
  | none => none

/-- `_build_selector_args`. -/
def buildSelectorArgs (thumbprint subject container : Option String)
    (choose : Bool) : Except String (List String) :=
  if choose then
    if truthyStr thumbprint || truthyStr subject || truthyStr container then
      .error msgChooseIncompat
    else .ok ["-choose"]
  else
    match optTruthyVal thumbprint with
    | some t => .ok ["-thumbprint", t]
    | none =>
      match optTruthyVal subject with
      | some sj => .ok ["-subject", sj]
      | none =>
        match optTruthyVal container with
        | some c => .ok ["-cont", c]
        | none => .error msgNoSelector

/-- Claim C7, counterexample: supplying both a thumbprint and a subject is
*not* rejected — the thumbprint silently wins. -/
theorem c7_selector_counterexample :
    buildSelectorArgs (some "AA BB") (some "CN=Ivanov") none false =
      .ok ["-thumbprint", "AA BB"] := rfl

/-- Claim C7 (amended): supplying none of the selectors is a configuration
error, and combining interactive-choose with any explicit selector is a
configuration error; but two or more explicit selectors are *not* rejected:
they resolve silently by the fixed precedence thumbprint > subject >
container. -/
theorem c7_selector_rules (t s c : Option String) (ch : Bool) :
    (ch = true → (truthyStr t || truthyStr s || truthyStr c) = true →
      buildSelectorArgs t s c ch = .error msgChooseIncompat) ∧
    (ch = true → (truthyStr t || truthyStr s || truthyStr c) = false →
      buildSelectorArgs t s c ch = .ok ["-choose"]) ∧
    (ch = false → ∀ tv, optTruthyVal t = some tv →
      buildSelectorArgs t s c ch = .ok ["-thumbprint", tv]) ∧
    (ch = false → optTruthyVal t = none → ∀ sv, optTruthyVal s = some sv →
      buildSelectorArgs t s c ch = .ok ["-subject", sv]) ∧
    (ch = false → optTruthyVal t = none → optTruthyVal s = none →
      ∀ cv, optTruthyVal c = some cv →
      buildSelectorArgs t s c ch = .ok ["-cont", cv]) ∧
    (ch = false → optTruthyVal t = none → optTruthyVal s = none →
      optTruthyVal c = none → buildSelectorArgs t s c ch = .error msgNoSelector) := by
  refine ⟨?_, ?_, ?_, ?_, ?_, ?_⟩
  · rintro rfl hx
    simp [buildSelectorArgs, hx]
  · rintro rfl hx
    simp [buildSelectorArgs, hx]
  · rintro rfl tv htv
    simp [buildSelectorArgs, htv]
  · rintro rfl ht sv hsv
    simp [buildSelectorArgs, ht, hsv]
  · rintro rfl ht hs cv hcv
    simp [buildSelectorArgs, ht, hs, hcv]
  · rintro rfl ht hs hc
    simp [buildSelectorArgs, ht, hs, hc]

/-- Witness for the amended C7: no selector at all is rejected. -/
theorem c7_selector_rules_witness :
    buildSelectorArgs none none none false = .error msgNoSelector :=
  (c7_selector_rules none none none false).2.2.2.2.2 rfl rfl rfl rfl

/-! ## `signer_cadescom.sign_file`: fault handling at the `SignCades` call

The `except` blocks around `signed_data.SignCades` substring-match the
exception text and raise a `SignerCadescomError` with a named hint; nothing
else happens there.  In particular `signer_cadescom` neither imports nor
calls `cryptopro_cli` (cryptcp): no fallback signing path exists anywhere
in the repository. -/

def keysetHint : String := "Требуется подключить носитель ключа"

def noKeyAccessHint : String := "Сертификат без доступа к закрытому ключу"

def notRegisteredHint : String := "CADESCOM не зарегистрирован/несовпадение разрядности"

def genericSignHint : String := "Не удалось создать подпись через CAdESCOM"

/-- The substring-matching chain of the `except` handlers. -/
def translateSignError (msg : String) : String :=
  if pyInStr "0x80090016" msg || pyInStr "NTE_BAD_KEYSET" msg then keysetHint
  else if pyInStr "0x8009000D" msg then noKeyAccessHint
  else if pyInStr "Class not registered" msg then notRegisteredHint
  else genericSignHint

/-- What `sign_file` can do after `SignCades` raised. -/
inductive SignFileOutcome
  | ok (path : String)
  | raiseError (msg : String)
  | fallbackInvoked (backend : String)
deriving Repr, DecidableEq

/-- `sign_file`'s behaviour when `SignCades` raises with text `excMsg`:
it raises the translated `SignerCadescomError` — there is no fallback
call. -/
def signFileOnSignCadesFault (excMsg : String) : SignFileOutcome :=
  .raiseError (translateSignError excMsg)

/-- Claim C8, counterexample: on the designated recoverable stale-key-set
fault (`NTE_BAD_KEYSET`), `sign_file` raises the hint directly; it does not
invoke any fallback through the external cryptcp backend. -/
theorem c8_no_fallback_counterexample :
    signFileOnSignCadesFault "(-2146893802, NTE_BAD_KEYSET)" =
      .raiseError keysetHint ∧
    signFileOnSignCadesFault "(-2146893802, NTE_BAD_KEYSET)" ≠
      .fallbackInvoked "cryptcp" := by
  decide

/-- Claim C8 (amended): any `SignCades` fault makes `sign_file` raise a
`SignerCadescomError` directly to the caller — never a fallback invocation
and never success — with the original diagnostic mapped to a named hint:
stale key-set (`0x80090016`/`NTE_BAD_KEYSET`), no private-key access
(`0x8009000D`), component not registered ("Class not registered"), else
the generic failure text. -/
theorem c8_fault_translation (msg : String) :
    (∀ b, signFileOnSignCadesFault msg ≠ .fallbackInvoked b) ∧
    (∀ p, signFileOnSignCadesFault msg ≠ .ok p) ∧
    ((pyInStr "0x80090016" msg || pyInStr "NTE_BAD_KEYSET" msg) = true →
      signFileOnSignCadesFault msg = .raiseError keysetHint) ∧
    ((pyInStr "0x80090016" msg || pyInStr "NTE_BAD_KEYSET" msg) = false →
      pyInStr "0x8009000D" msg = true →
      signFileOnSignCadesFault msg = .raiseError noKeyAccessHint) ∧
    ((pyInStr "0x80090016" msg || pyInStr "NTE_BAD_KEYSET" msg) = false →
      pyInStr "0x8009000D" msg = false →
      pyInStr "Class not registered" msg = true →
      signFileOnSignCadesFault msg = .raiseError notRegisteredHint) := by
  unfold signFileOnSignCadesFault translateSignError
  refine ⟨?_, ?_, ?_, ?_, ?_⟩
  · intro b
    split_ifs <;> simp
  · intro p
    split_ifs <;> simp
  · intro h
    simp [h]
  · intro h1 h2
    simp [h1, h2]
  · intro h1 h2 h3
    simp [h1, h2, h3]

/-- Witness for the amended C8 at a concrete not-registered fault text. -/
theorem c8_fault_translation_witness :
    signFileOnSignCadesFault "COMError: Class not registered" =
      .raiseError notRegisteredHint :=
  (c8_fault_translation "COMError: Class not registered").2.2.2.2
    (by decide) (by decide) (by decide)
